import Mathlib

/-!
A shallow embedding of `src/tfrdump.cpp` (a dumper for fixed-size 3855-byte
TIE-Fighter pilot save files) together with theorems settling the spec claims.

Machine integers are modelled as `Nat` with an explicit modulus where the C++
arithmetic can wrap (BYTE casts as `% 256`, DWORD multiplication as `% 2 ^ 32`).
The member array `pilotfilebuffer` (`array<BYTE,3855>`) is modelled as a
`List Nat` of bytes; an array access is modelled by `List.getD`/`List.getElem?`.
`operator[]` on `std::array` performs no bounds check, so the *footprint* of
the decoder's reads is tracked separately (`decodeReads`) in order to reason
about which accesses stay inside the 3855-byte buffer.
-/

namespace Tfrdump

/-- Array access `pilotfilebuffer[i]` on the byte-buffer model. -/
def bufAt (buf : List Nat) (i : Nat) : Nat := buf.getD i 0

/-- `Pilot::betoW` (tfrdump.cpp:270-276): `x |= buf[offset+1] << 8; x |= buf[offset]`.
Starting from `x = 0`, the two or-assignments are the or of the shifted bytes. -/
def betoW (buf : List Nat) (offset : Nat) : Nat :=
  Nat.lor (Nat.shiftLeft (bufAt buf (offset + 1)) 8) (bufAt buf offset)

/-- `Pilot::betoDW` (tfrdump.cpp:287-295): four bytes assembled with shifts 24/16/8/0,
the byte at `offset+3` contributing the most significant bits. -/
def betoDW (buf : List Nat) (offset : Nat) : Nat :=
  Nat.lor
    (Nat.lor
      (Nat.lor (Nat.shiftLeft (bufAt buf (offset + 3)) 24)
        (Nat.shiftLeft (bufAt buf (offset + 2)) 16))
      (Nat.shiftLeft (bufAt buf (offset + 1)) 8))
    (bufAt buf offset)

/-- The byte-filling loop of `Pilot::Pilot` (tfrdump.cpp:318-321):
`for(i=0;i<3855;++i) { pilotstream.read(readbuffer,1); pilotfilebuffer[i] = (BYTE)*readbuffer; }`.
The first argument is the remaining bytes of the file, the second the current
content of `*readbuffer`, the third the remaining loop iterations.  A successful
one-byte read stores the byte (cast to BYTE, i.e. `% 256`) and leaves it in
`*readbuffer`; once the stream is exhausted, `istream::read` fails and leaves
`*readbuffer` unchanged, so the failed iterations keep storing the same value. -/
def fillLoop : List Nat → Nat → Nat → List Nat
  | _, _, 0 => []
  | [], rb, n + 1 => rb :: fillLoop [] rb n
  | b :: rest, _, n + 1 => b % 256 :: fillLoop rest (b % 256) n

/-- The buffer `Pilot::Pilot` ends up with after the read loop, for a file whose
bytes are `file`; `init` is the (indeterminate) initial content of the freshly
allocated `readbuffer`, which is only ever stored if the file is empty. -/
def pilotBuffer (file : List Nat) (init : Nat) : List Nat :=
  fillLoop file init 3855

/-- A file's bytes explicitly zero-padded to the fixed length 3855. -/
def zeroPad (file : List Nat) : List Nat :=
  file ++ List.replicate (3855 - file.length) 0

/-- `navyrank = pilotfilebuffer[2]` (tfrdump.cpp:326). -/
def decodeNavyrank (buf : List Nat) : Nat := bufAt buf 2

/-- `level = betoW(8)` (tfrdump.cpp:329). -/
def decodeLevel (buf : List Nat) : Nat := betoW buf 8

/-- `activebattle = pilotfilebuffer[616]` (tfrdump.cpp:354). -/
def decodeActivebattle (buf : List Nat) : Nat := bufAt buf 616

/-- Base offsets of the seven per-unit simulation-medal counter blocks read by
the decode loop (tfrdump.cpp:344-352): tf 520, ti 528, tb 536, ta 544, gun 552,
td 560, missileboat 568. -/
def simBaseOffsets : List Nat := [520, 528, 536, 544, 552, 560, 568]

/-- Declared element count of each `*_sim` member array of class `Pilot`
(tfrdump.cpp:99-105): `BYTE tf_sim[3];` and likewise for the other six. -/
def simDeclaredSize : Nat := 3

/-- The indices written into each `*_sim` array by the decode loop
`for(int i=0;i<4;++i)` (tfrdump.cpp:344-352). -/
def simWriteIndices : List Nat := List.range 4

/-- Every `(offset, width)` pair that `Pilot::Pilot` (tfrdump.cpp:326-378) reads
from `pilotfilebuffer`: direct byte accesses have width 1, `betoW` reads width 2
at its offset, `betoDW` width 4.  In source order: navyrank, difficulty, points,
level, secretrank; the seven certificates and five unused certificates; the
seven 4-byte simulation blocks; activebattle; 13 battle statuses; 13 mission
numbers; 68 kill WORDs; laser/warhead counters; 28 training-point DWORDs;
104 battle-point DWORDs; total, captured, lost. -/
def decodeReads : List (Nat × Nat) :=
  [(2, 1), (3, 1), (4, 4), (8, 2), (10, 1),
   (90, 1), (91, 1), (92, 1), (93, 1), (94, 1), (95, 1), (96, 1)]
  ++ (List.range 5).map (fun i => (97 + i, 1))
  ++ (List.range 4).flatMap (fun i => simBaseOffsets.map (fun o => (o + i, 1)))
  ++ [(616, 1)]
  ++ (List.range 13).map (fun i => (617 + i, 1))
  ++ (List.range 13).map (fun i => (637 + i, 1))
  ++ (List.range 68).map (fun i => (1632 + 2 * i, 2))
  ++ [(1908, 4), (1912, 4), (1920, 2), (1922, 2)]
  ++ (List.range 28).map (fun i => (2064 + 4 * i, 4))
  ++ (List.range 104).map (fun i => (2914 + 4 * i, 4))
  ++ [(3554, 2), (3556, 2), (3854, 2)]

/-- The rank label array of `Pilot::navyrank_toString` (tfrdump.cpp:236). -/
def navyranks : List String :=
  ["Cadet", "Officer", "Lieutenant", "Captain", "Commander", "General"]

/-- The difficulty label array of `Pilot::difficulty_toString` (tfrdump.cpp:245). -/
def diffs : List String := ["easy", "medium", "hard"]

/-- The secret-order label array of `Pilot::secretrank_toString` (tfrdump.cpp:254-257). -/
def secretranks : List String :=
  ["None", "First Initiate", "Second Circle", "Third Circle", "Fourth Circle",
   "Inner Circle", "Emperor\x27s Hand", "Emperor\x27s Eyes", "Emperor\x27s Voice",
   "Emperor\x27s Reach"]

/-- `Pilot::navyrank_toString` (tfrdump.cpp:234-238): `return ranks[navyrank];`
with no bounds check; an out-of-range code is an out-of-bounds array read,
modelled by the `none` result of `List.getElem?`. -/
def navyrank_toString (navyrank : Nat) : Option String := navyranks[navyrank]?

/-- `Pilot::difficulty_toString` (tfrdump.cpp:243-247): `return diffs[difficulty];`,
unchecked indexing modelled as for `navyrank_toString`. -/
def difficulty_toString (difficulty : Nat) : Option String := diffs[difficulty]?

/-- `Pilot::secretrank_toString` (tfrdump.cpp:252-259): `return ranks[secretrank];`,
unchecked indexing modelled as for `navyrank_toString`. -/
def secretrank_toString (secretrank : Nat) : Option String := secretranks[secretrank]?

/-- `Pilot::getmedal` (tfrdump.cpp:297-309): switch on the summed counter. -/
def getmedal (ship : Nat) : String :=
  if ship = 2 then "bronze"
  else if ship = 3 then "silver"
  else if ship = 4 then "gold"
  else "(none)"

/-- Modulus of C++ `DWORD` (`uint32_t`) arithmetic. -/
def dwordMod : Nat := 2 ^ 32

/-- The laser line of `operator<<` (tfrdump.cpp:473-474): the fired/hit counts are
always printed; the percentage clause is appended only under `if(p.lasersfired)`.
`100*p.laserhits` is `uint32` arithmetic, hence the `% dwordMod`. -/
def laserLine (lasersfired laserhits : Nat) : String :=
  Nat.repr lasersfired ++ " Lasers fired, " ++ Nat.repr laserhits ++ " Lasers hit"
    ++ (if lasersfired ≠ 0 then " (" ++ Nat.repr (100 * laserhits % dwordMod / lasersfired) ++ "%)"
        else "")

/-- The warhead line of `operator<<` (tfrdump.cpp:475-476).  The counters are
`uint16`, so `100*p.warheadhits` is exact `int` arithmetic (no wraparound). -/
def warheadLine (warheadsfired warheadhits : Nat) : String :=
  Nat.repr warheadsfired ++ " Warheads fired, " ++ Nat.repr warheadhits ++ " Warheads hit"
    ++ (if warheadsfired ≠ 0 then " (" ++ Nat.repr (100 * warheadhits / warheadsfired) ++ "%)"
        else "")

/-- The training-points loop of `operator<<` (tfrdump.cpp:485-491): the first
argument is the current value of the counter `training` (initialised to 1), the
second the remaining entries; only non-zero entries emit a line and bump the
counter. -/
def trainingLines : Nat → List Nat → List String
  | _, [] => []
  | training, p :: rest =>
    if p ≠ 0 then
      ("Training " ++ Nat.repr training ++ ":\t" ++ Nat.repr p ++ " points")
        :: trainingLines (training + 1) rest
    else trainingLines training rest

/-- The battle-points loop of `operator<<` (tfrdump.cpp:493-499), same shape as
`trainingLines` with counter `battle` initialised to 1. -/
def battleLines : Nat → List Nat → List String
  | _, [] => []
  | battle, p :: rest =>
    if p ≠ 0 then
      ("Battlemission " ++ Nat.repr battle ++ ":\t" ++ Nat.repr p ++ " points")
        :: battleLines (battle + 1) rest
    else battleLines battle rest

/-- Specification-side description of the point-line rendering (from the spec's
words: "render a 1-based sequential label only for non-zero entries ...
numbering ... counts only rendered entries"): one line per given entry, labels
counting up from `t`.  To be compared with `trainingLines`/`battleLines` applied
to the unfiltered array. -/
def seqPointLines (tag : String) : Nat → List Nat → List String
  | _, [] => []
  | t, v :: vs =>
    (tag ++ Nat.repr t ++ ":\t" ++ Nat.repr v ++ " points") :: seqPointLines tag (t + 1) vs

/-- The body of one battle-status line, i.e. the switch of `operator<<`
(tfrdump.cpp:457-470): cases 1, 3, 2|4, and a default that prints only
"unknown" (no mission counter). -/
def battleStatusBody (status mission : Nat) : String :=
  if status = 1 then "active. Last mission: " ++ Nat.repr mission
  else if status = 3 then "completed. Last mission: " ++ Nat.repr mission
  else if status = 2 ∨ status = 4 then "captured or killed. Last mission: " ++ Nat.repr mission
  else "unknown"

/-- The battle-status section of `operator<<` (tfrdump.cpp:455-471): one line per
slot `i < battlestatus.size() = 13`, prefixed with the 1-based slot number. -/
def battleSection (battlestatus missionchoose : List Nat) : List String :=
  (List.range 13).map (fun i =>
    "Battle " ++ Nat.repr (i + 1) ++ " status:\t"
      ++ battleStatusBody (battlestatus.getD i 0) (missionchoose.getD i 0))

/-- The active-battle line of `operator<<` (tfrdump.cpp:453):
`out << "Active Battle:\t" << (int)p.activebattle + 1;` — the stored byte is
widened to `int` (no wraparound) and printed incremented by one. -/
def activeBattleLine (activebattle : Nat) : String :=
  "Active Battle:\t" ++ Nat.repr (activebattle + 1)

/-- `main` (tfrdump.cpp:503-512) together with the file-open branch of
`Pilot::Pilot` (tfrdump.cpp:316-323).  With a wrong argument count the program
prints a usage message to stderr and returns -1 without constructing a Pilot.
Otherwise a Pilot is always constructed — if the stream does not open (missing
or unreadable path) the read loop is skipped and the zero-filled buffer is kept
— and the full dump is unconditionally printed, with implicit return value 0.
The result is the exit code paired with the buffer whose decoded record was
dumped (`none` = no dump printed). -/
def runMain (argc : Nat) (file : Option (List Nat)) (init : Nat) : Int × Option (List Nat) :=
  if argc ≠ 2 then (-1, none)
  else
    match file with
    | none => (0, some (List.replicate 3855 0))
    | some f => (0, some (pilotBuffer f init))

/-- Helper for C4: the rank translation produces a label exactly for codes 0-5;
any larger code indexes past the end of the 6-element label array. -/
theorem navyrank_isSome (c : Nat) : (navyrank_toString c).isSome = decide (c < 6) := by
  rcases Nat.lt_or_ge c 6 with h | h
  · interval_cases c <;> rfl
  · rw [navyrank_toString, List.getElem?_eq_none (by simp [navyranks]; omega)]
    simp [decide_eq_false (Nat.not_lt.mpr h)]

/-- Helper for C4: the difficulty translation produces a label exactly for codes 0-2. -/
theorem difficulty_isSome (c : Nat) : (difficulty_toString c).isSome = decide (c < 3) := by
  rcases Nat.lt_or_ge c 3 with h | h
  · interval_cases c <;> rfl
  · rw [difficulty_toString, List.getElem?_eq_none (by simp [diffs]; omega)]
    simp [decide_eq_false (Nat.not_lt.mpr h)]

/-- Helper for C4: the secret-rank translation produces a label exactly for codes 0-9. -/
theorem secretrank_isSome (c : Nat) : (secretrank_toString c).isSome = decide (c < 10) := by
  rcases Nat.lt_or_ge c 10 with h | h
  · interval_cases c <;> rfl
  · rw [secretrank_toString, List.getElem?_eq_none (by simp [secretranks]; omega)]
    simp [decide_eq_false (Nat.not_lt.mpr h)]

/-- Helper for C8: the training-points loop renders exactly the non-zero entries,
labelled sequentially from the initial counter value. -/
theorem trainingLines_eq_seq (t : Nat) (pts : List Nat) :
    trainingLines t pts = seqPointLines ("Training ") t (pts.filter (fun v => v != 0)) := by
  induction pts generalizing t with
  | nil => rfl
  | cons p rest ih =>
    simp only [trainingLines, List.filter_cons]
    by_cases h : p = 0
    · subst h; simp [ih]
    · simp [h, ih, seqPointLines]

/-- Helper for C8: the battle-points loop renders exactly the non-zero entries,
labelled sequentially from the initial counter value. -/
theorem battleLines_eq_seq (t : Nat) (pts : List Nat) :
    battleLines t pts = seqPointLines ("Battlemission ") t (pts.filter (fun v => v != 0)) := by
  induction pts generalizing t with
  | nil => rfl
  | cons p rest ih =>
    simp only [battleLines, List.filter_cons]
    by_cases h : p = 0
    · subst h; simp [ih]
    · simp [h, ih, seqPointLines]

/-- Claim C1: the claim states that every read the decoder performs satisfies
offset + width ≤ 3855 (including the 2-byte lost stat at offset 3854) and that
an out-of-range entry yields a decode error.  The code violates this: among all
279 reads of `Pilot::Pilot`, exactly the read of `lost = betoW(3854)` reaches
past the buffer (it accesses `pilotfilebuffer[3855]` in a 3855-byte array,
silently, with no error path), while every other read is in bounds. -/
theorem c1_lost_read_past_buffer :
    decodeReads.filter (fun p => decide (3855 < p.1 + p.2)) = [(3854, 2)]
      ∧ (3854, 2) ∈ decodeReads ∧ decodeReads.length = 279 := by
  set_option maxRecDepth 10000 in decide

/-- Claim C2: the claim states that a file shorter than 3855 bytes decodes as if
zero-padded.  The code violates this: for the 1-byte file containing 7, the
failed reads leave the last byte in `readbuffer`, so the whole buffer tail is
filled with 7; navyrank (offset 2) decodes to 7 and level (offsets 8-9) to
0x0707 = 1799, whereas the explicitly zero-padded file decodes both to 0. -/
theorem c2_short_file_not_zero_extended :
    decodeNavyrank (pilotBuffer ([7]) 0) = 7
      ∧ decodeLevel (pilotBuffer ([7]) 0) = 1799
      ∧ decodeNavyrank (pilotBuffer (zeroPad ([7])) 0) = 0
      ∧ decodeLevel (pilotBuffer (zeroPad ([7])) 0) = 0 :=
  ⟨rfl, rfl, rfl, rfl⟩

/-- Claim C3: the claim states that the 4 per-unit simulation-counter writes all
land inside the unit's own array.  The code violates this: the decode loop
writes indices 0-3, but each `*_sim` member array is declared with only 3
elements, so index 3 is out of bounds for every unit type; the source reads
(base offset + 0..3) themselves all lie inside the 3855-byte buffer. -/
theorem c3_sim_writes_out_of_bounds :
    simWriteIndices.filter (fun i => decide (simDeclaredSize ≤ i)) = [3]
      ∧ simBaseOffsets.all (fun o => simWriteIndices.all (fun i => decide (o + i + 1 ≤ 3855)))
          = true := by
  decide

/-- Claim C4 counterexample: the claim states that out-of-range codes fail with
UnknownCode rather than indexing out of bounds.  The code has no such check:
for the out-of-range codes 6 / 3 / 10 each translation function indexes past
the end of its label array (modelled by the `none` result), producing no label
and no UnknownCode error. -/
theorem c4_unchecked_indexing :
    navyrank_toString 6 = none ∧ difficulty_toString 3 = none
      ∧ secretrank_toString 10 = none :=
  ⟨rfl, rfl, rfl⟩

/-- Claim C4 amended: each translation function returns the documented label for
every in-range code (0-5 ranks, 0-2 difficulties, 0-9 secret ranks) and
performs an unchecked out-of-bounds array read (no label, no UnknownCode
error) for every code beyond its table. -/
theorem c4_translation_tables :
    (∀ c : Nat, (navyrank_toString c).isSome = decide (c < 6)
        ∧ (difficulty_toString c).isSome = decide (c < 3)
        ∧ (secretrank_toString c).isSome = decide (c < 10))
      ∧ navyrank_toString 0 = some ("Cadet") ∧ navyrank_toString 1 = some ("Officer")
      ∧ navyrank_toString 2 = some ("Lieutenant") ∧ navyrank_toString 3 = some ("Captain")
      ∧ navyrank_toString 4 = some ("Commander") ∧ navyrank_toString 5 = some ("General")
      ∧ difficulty_toString 0 = some ("easy") ∧ difficulty_toString 1 = some ("medium")
      ∧ difficulty_toString 2 = some ("hard")
      ∧ secretrank_toString 0 = some ("None")
      ∧ secretrank_toString 1 = some ("First Initiate")
      ∧ secretrank_toString 2 = some ("Second Circle")
      ∧ secretrank_toString 3 = some ("Third Circle")
      ∧ secretrank_toString 4 = some ("Fourth Circle")
      ∧ secretrank_toString 5 = some ("Inner Circle")
      ∧ secretrank_toString 6 = some ("Emperor\x27s Hand")
      ∧ secretrank_toString 7 = some ("Emperor\x27s Eyes")
      ∧ secretrank_toString 8 = some ("Emperor\x27s Voice")
      ∧ secretrank_toString 9 = some ("Emperor\x27s Reach") :=
  ⟨fun c => ⟨navyrank_isSome c, difficulty_isSome c, secretrank_isSome c⟩,
   rfl, rfl, rfl, rfl, rfl, rfl, rfl, rfl, rfl, rfl, rfl, rfl, rfl, rfl, rfl, rfl, rfl,
   rfl, rfl⟩

/-- Claim C5 counterexample: the claim states that a missing/unreadable input
path is reported, the process exits non-zero, and no output is produced.  The
code violates this: with a correct argument count but an unopenable file,
`is_open()` fails silently, the zero-filled buffer is decoded, the full dump is
printed, and the exit code is 0. -/
theorem c5_missing_file_dumps_zero_record :
    runMain 2 none 0 = (0, some (List.replicate 3855 0)) := rfl

/-- Claim C5 amended: only a wrong argument count is reported (usage message,
exit code -1, no dump).  With the correct argument count the program always
exits 0 and prints the full dump; a missing or unreadable file is silently
treated as an all-zero 3855-byte buffer. -/
theorem c5_error_handling :
    runMain 1 none 0 = (-1, none) ∧ runMain 3 (some ([1, 2])) 0 = (-1, none)
      ∧ (∀ file init, (runMain 2 file init).1 = 0 ∧ ((runMain 2 file init).2).isSome = true)
      ∧ runMain 2 none 0 = (0, some (List.replicate 3855 0)) := by
  refine ⟨rfl, rfl, fun file init => ?_, rfl⟩
  cases file <;> exact ⟨rfl, rfl⟩

/-- Claim C6 counterexample: the claim states that the medal function maps
anomalous sums (and 0, 1) to the label "none"; the code returns the label
"(none)" instead. -/
theorem c6_default_label_is_parenthesised :
    getmedal 0 ≠ "none" ∧ getmedal 0 = "(none)" := by
  refine ⟨by decide, rfl⟩

/-- Claim C6 amended: `getmedal` is total — 2 maps to "bronze", 3 to "silver",
4 to "gold", and every other sum (including 0, 1 and anomalous sums such as 5)
maps to the defensive default "(none)"; no input produces an error. -/
theorem c6_medal_tiers :
    getmedal 0 = "(none)" ∧ getmedal 1 = "(none)" ∧ getmedal 2 = "bronze"
      ∧ getmedal 3 = "silver" ∧ getmedal 4 = "gold" ∧ getmedal 5 = "(none)"
      ∧ ∀ n : Nat, getmedal n = "bronze" ∨ getmedal n = "silver" ∨ getmedal n = "gold"
          ∨ getmedal n = "(none)" := by
  refine ⟨rfl, rfl, rfl, rfl, rfl, rfl, fun n => ?_⟩
  unfold getmedal
  split_ifs <;> simp

/-- Claim C7 counterexample: the claim states the rendered laser percentage
always equals floor(100 × hits / fired).  The code computes `100*p.laserhits`
in uint32, which wraps: for fired = 100, hits = 42949673 the product
4294967300 wraps to 4 and the code renders "(0%)", while
floor(100 × 42949673 / 100) = 42949673. -/
theorem c7_laser_percentage_wraps :
    laserLine 100 42949673 = "100 Lasers fired, 42949673 Lasers hit (0%)"
      ∧ 100 * 42949673 / 100 = 42949673 ∧ (0 : Nat) ≠ 42949673 := by
  refine ⟨rfl, by decide, by decide⟩

/-- Claim C7 amended: both weapon lines always render the fired and hit counts;
the percentage clause is appended exactly when fired is non-zero and otherwise
omitted entirely; the warhead percentage is exactly floor(100 × hits / fired),
and the laser percentage equals it whenever 100 × hits does not overflow uint32
(in general the laser product is reduced mod 2^32 first). -/
theorem c7_weapon_accuracy (fired hits : Nat) (hf : fired ≠ 0)
    (h32 : 100 * hits < dwordMod) :
    laserLine fired hits
        = Nat.repr fired ++ " Lasers fired, " ++ Nat.repr hits ++ " Lasers hit"
          ++ (" (" ++ Nat.repr (100 * hits / fired) ++ "%)")
      ∧ laserLine 0 hits = Nat.repr 0 ++ " Lasers fired, " ++ Nat.repr hits ++ " Lasers hit"
      ∧ warheadLine fired hits
        = Nat.repr fired ++ " Warheads fired, " ++ Nat.repr hits ++ " Warheads hit"
          ++ (" (" ++ Nat.repr (100 * hits / fired) ++ "%)")
      ∧ warheadLine 0 hits
        = Nat.repr 0 ++ " Warheads fired, " ++ Nat.repr hits ++ " Warheads hit" := by
  refine ⟨?_, ?_, ?_, ?_⟩
  · simp [laserLine, hf, Nat.mod_eq_of_lt h32]
  · simp [laserLine]
  · simp [warheadLine, hf]
  · simp [warheadLine]

/-- Witness for C7 amended, at fired = 100, hits = 37: the hypotheses hold and
the rendered laser line carries the percentage clause with 37 = 100·37/100. -/
theorem c7_weapon_accuracy_witness :
    (100 ≠ 0) ∧ 100 * 37 < dwordMod
      ∧ laserLine 100 37
        = Nat.repr 100 ++ " Lasers fired, " ++ Nat.repr 37 ++ " Lasers hit"
          ++ (" (" ++ Nat.repr (100 * 37 / 100) ++ "%)") :=
  ⟨by decide, by decide, (c7_weapon_accuracy 100 37 (by decide) (by decide)).1⟩

/-- Claim C8: both point-rendering loops emit one line per non-zero entry only,
skipping zero entries, with 1-based sequential labels that count only rendered
entries and restart per section; in particular [0, 150, 0, 300] yields exactly
the two lines labelled 1 and 2. -/
theorem c8_point_line_suppression :
    (∀ t pts, trainingLines t pts = seqPointLines ("Training ") t (pts.filter (fun v => v != 0)))
      ∧ (∀ t pts,
          battleLines t pts = seqPointLines ("Battlemission ") t (pts.filter (fun v => v != 0)))
      ∧ trainingLines 1 ([0, 150, 0, 300])
          = [("Training 1:\t150 points"), ("Training 2:\t300 points")]
      ∧ battleLines 1 ([0, 150, 0, 300])
          = [("Battlemission 1:\t150 points"), ("Battlemission 2:\t300 points")] :=
  ⟨trainingLines_eq_seq, battleLines_eq_seq, rfl, rfl⟩

/-- Claim C9: the battle-status section always renders all 13 slots; codes 1, 3,
2 and 4 resolve to their labels with the paired last-mission counter appended,
every other code renders as "unknown", and an unrecognized code in one slot
does not prevent the remaining slots from rendering (shown on a concrete
status array with code 99 in slot 0 and code 3 in slot 1). -/
theorem c9_battle_status (bs mc : List Nat) (m : Nat) :
    (battleSection bs mc).length = 13
      ∧ battleStatusBody 1 m = "active. Last mission: " ++ Nat.repr m
      ∧ battleStatusBody 3 m = "completed. Last mission: " ++ Nat.repr m
      ∧ battleStatusBody 2 m = "captured or killed. Last mission: " ++ Nat.repr m
      ∧ battleStatusBody 4 m = "captured or killed. Last mission: " ++ Nat.repr m
      ∧ (∀ s, battleStatusBody s m = "unknown" ∨ 0 < s ∧ s < 5)
      ∧ (battleSection ((99 : Nat) :: List.replicate 12 3) (List.range 13))[0]?
          = some ("Battle 1 status:\tunknown")
      ∧ (battleSection ((99 : Nat) :: List.replicate 12 3) (List.range 13))[1]?
          = some ("Battle 2 status:\tcompleted. Last mission: 1") := by
  refine ⟨by simp [battleSection], rfl, rfl, rfl, rfl, fun s => ?_, rfl, rfl⟩
  by_cases h1 : s = 1
  · subst h1; right; decide
  by_cases h2 : s = 2
  · subst h2; right; decide
  by_cases h3 : s = 3
  · subst h3; right; decide
  by_cases h4 : s = 4
  · subst h4; right; decide
  left; simp [battleStatusBody, h1, h2, h3, h4]

/-- Claim C10: the Active Battle line renders the stored one-byte field plus
one, for every stored value; in particular stored 0 renders as 1, stored 7 as 8
and stored 255 as 256. -/
theorem c10_active_battle (buf : List Nat) :
    activeBattleLine (decodeActivebattle buf)
        = "Active Battle:\t" ++ Nat.repr (bufAt buf 616 + 1)
      ∧ activeBattleLine 0 = "Active Battle:\t1"
      ∧ activeBattleLine 7 = "Active Battle:\t8"
      ∧ activeBattleLine 255 = "Active Battle:\t256" :=
  ⟨rfl, rfl, rfl, rfl⟩

end Tfrdump
